import Mathlib

/-!
Verification of the client-side retry and in-flight-RPC tracking core
(src/yb/rpc/rpc.cc): the RpcRetrier state machine (HandleResponse,
DelayedRetry, DoRetry, destructor check) and the Rpcs registry
(Register, Prepare, DoRequestAbortAll, Shutdown).

The embedding is sequential: each operation is modelled as a pure
function from the pre-state (plus the external inputs it consumes:
the random jitter, the messenger scheduling outcome, the current
monotonic time) to the post-state together with the externally
observable effects (returned status, command callbacks invoked).
Atomic CAS loops reduce, in a single-thread execution, to a case
analysis on the observed state; a spin loop that no other thread can
unblock is modelled as divergence (an Option-valued result of none).
MonoTime instants are naturals (milliseconds); an uninitialized
MonoTime is Option.none; the invalid reactor task id sentinel is
Option.none.
-/

namespace YbRpc

/-- Status codes of yb::Status that appear in rpc.cc. -/
inductive StatusKind where
  | ok
  | remoteError
  | timedOut
  | serviceUnavailable
  | aborted
  | illegalState
  deriving DecidableEq, Repr

/-- Shallow embedding of yb::Status: a code together with a message. -/
structure Status where
  kind : StatusKind
  msg : String
  deriving DecidableEq, Repr

def Status.OK : Status := ⟨.ok, ""⟩

def Status.isOk (s : Status) : Bool := s.kind = .ok

def Status.IsTimedOut (s : Status) : Bool := s.kind = .timedOut

def Status.IsRemoteError (s : Status) : Bool := s.kind = .remoteError

def Status.IsServiceUnavailable (s : Status) : Bool := s.kind = .serviceUnavailable

def StatusKind.codeString : StatusKind → String
  | .ok => "OK"
  | .remoteError => "Remote error"
  | .timedOut => "Timed out"
  | .serviceUnavailable => "Service unavailable"
  | .aborted => "Aborted"
  | .illegalState => "Illegal state"

/-- Rendering of a status as Status::ToString: the code string, then the message. -/
def Status.ToString (s : Status) : String :=
  if s.kind = .ok then "OK" else s.kind.codeString ++ ": " ++ s.msg

/-- Error codes of ErrorStatusPB; only ERROR_SERVER_TOO_BUSY is inspected by rpc.cc. -/
inductive ErrorCodePB where
  | ERROR_SERVER_TOO_BUSY
  | otherError
  deriving DecidableEq, Repr

/-- Structured error payload of a remote error (ErrorStatusPB): an optional code field. -/
structure ErrorStatusPB where
  hasCode : Bool
  code : ErrorCodePB
  deriving DecidableEq, Repr

/-- Per-attempt call context (RpcController): outcome status and, for remote
errors, the structured error response (null pointer modelled as none). -/
structure RpcController where
  status : Status
  errorResponse : Option ErrorStatusPB
  deriving DecidableEq, Repr

/-- Controller Reset: a fresh controller for the next attempt. -/
def RpcController.Reset : RpcController := ⟨Status.OK, none⟩

/-- States of the retrier state machine (RpcRetrierState). -/
inductive RpcRetrierState where
  | kIdle
  | kScheduling
  | kWaiting
  | kRunning
  | kFinished
  deriving DecidableEq, Repr

/-- Rendering of a retrier state, as yb::rpc::ToString on the enum. -/
def RpcRetrierState.toStr : RpcRetrierState → String
  | .kIdle => "kIdle"
  | .kScheduling => "kScheduling"
  | .kWaiting => "kWaiting"
  | .kRunning => "kRunning"
  | .kFinished => "kFinished"

/-- Backoff strategies of DelayedRetry. -/
inductive BackoffStrategy where
  | kExponential
  | kLinear
  deriving DecidableEq, Repr

/-- Default of the flag min_backoff_ms_exponent. -/
def FLAGS_min_backoff_ms_exponent : Nat := 7

/-- Default of the flag max_backoff_ms_exponent. -/
def FLAGS_max_backoff_ms_exponent : Nat := 16

/-- Default of the flag rpcs_shutdown_timeout_ms (kTimeMultiplier is 1). -/
def FLAGS_rpcs_shutdown_timeout_ms : Nat := 15000

/-- Default of the flag rpcs_shutdown_extra_delay_ms (kTimeMultiplier is 1). -/
def FLAGS_rpcs_shutdown_extra_delay_ms : Nat := 5000

/-- State of an RpcRetrier. task_id of none is the kInvalidTaskId sentinel;
deadline of none is an uninitialized MonoTime (no overall deadline). -/
structure RpcRetrier where
  attempt_num : Nat
  last_error : Status
  state : RpcRetrierState
  task_id : Option Nat
  deadline : Option Nat
  controller : RpcController
  deriving DecidableEq, Repr

/-- The backoff delay in milliseconds computed by DelayedRetry: the strategy
base (1 shifted by the clamped exponent for exponential, the attempt count for
linear) plus the jitter drawn by RandomUniformInt(0, 4). -/
def backoffDelayMs (strategy : BackoffStrategy) (minExp maxExp attemptNum jitter : Nat) : Nat :=
  (match strategy with
    | .kExponential => 2 ^ min (minExp + attemptNum) maxExp
    | .kLinear => attemptNum) + jitter

/-- The last_error update at the top of DelayedRetry: a non-OK why_status
overwrites last_error when the prior last_error is OK or a timeout. -/
def RpcRetrier.updateLastError (r : RpcRetrier) (whyStatus : Status) : RpcRetrier :=
  if !whyStatus.isOk && (r.last_error.isOk || r.last_error.IsTimedOut) then
    { r with last_error := whyStatus }
  else r

/-- Result of DelayedRetry: the post-state, the returned status, the computed
delay, and the delay actually handed to ScheduleOnReactor (none when the
schedule call was never reached). -/
structure DelayedRetryResult where
  retrier : RpcRetrier
  status : Status
  num_ms : Nat
  scheduledDelay : Option Nat
  deriving DecidableEq, Repr

/-- RpcRetrier::DelayedRetry. rpcStr is the printed command ($0 of the format
strings); jitter is the value drawn by RandomUniformInt(0, 4); schedule is the
messenger: it receives the delay and returns the task id, none being the
kInvalidTaskId refusal. The CAS loop observing kScheduling or kRunning spins
until another thread moves the state, hence diverges sequentially: none. -/
def RpcRetrier.DelayedRetry (r : RpcRetrier) (rpcStr : String) (whyStatus : Status)
    (strategy : BackoffStrategy) (minExp maxExp jitter : Nat)
    (schedule : Nat → Option Nat) : Option DelayedRetryResult :=
  let r1 := r.updateLastError whyStatus
  let numMs := backoffDelayMs strategy minExp maxExp r1.attempt_num jitter
  let r2 := { r1 with attempt_num := r1.attempt_num + 1 }
  match r2.state with
  | .kFinished =>
      some ⟨r2, ⟨.illegalState, "Retry of finished command: " ++ rpcStr⟩, numMs, none⟩
  | .kWaiting =>
      some ⟨r2, ⟨.illegalState, "Retry of already waiting command: " ++ rpcStr⟩, numMs, none⟩
  | .kIdle =>
      let r3 := { r2 with state := .kScheduling }
      match schedule numMs with
      | none =>
          some ⟨{ r3 with task_id := none, state := .kFinished },
                ⟨.aborted, "Failed to schedule: " ++ rpcStr⟩, numMs, some numMs⟩
      | some t =>
          some ⟨{ r3 with task_id := some t, state := .kWaiting }, Status.OK, numMs, some numMs⟩
  | _ => none

/-- Result of HandleResponse: the post-state, the returned bool, and the value
written to out_status (none when out_status was left untouched). -/
structure HandleResponseResult where
  retrier : RpcRetrier
  retval : Bool
  out_status : Option Status
  deriving DecidableEq, Repr

/-- RpcRetrier::HandleResponse: retries with exponential backoff on a remote
error carrying ERROR_SERVER_TOO_BUSY when retry_when_busy is set; otherwise
writes the controller status to out_status and returns false. A failed
DelayedRetry writes its own error to out_status. -/
def RpcRetrier.HandleResponse (r : RpcRetrier) (rpcStr : String) (retryWhenBusy : Bool)
    (minExp maxExp jitter : Nat) (schedule : Nat → Option Nat) :
    Option HandleResponseResult :=
  let controllerStatus := r.controller.status
  if controllerStatus.IsRemoteError && retryWhenBusy then
    match r.controller.errorResponse with
    | some err =>
        if err.hasCode && err.code = ErrorCodePB.ERROR_SERVER_TOO_BUSY then
          match r.DelayedRetry rpcStr controllerStatus .kExponential minExp maxExp jitter
              schedule with
          | none => none
          | some res =>
              if res.status.isOk then some ⟨res.retrier, true, none⟩
              else some ⟨res.retrier, false, some res.status⟩
        else some ⟨r, false, some controllerStatus⟩
    | none => some ⟨r, false, some controllerStatus⟩
  else some ⟨r, false, some controllerStatus⟩

/-- What DoRetry does with the command: reset the controller and send the next
attempt, or deliver a terminal status through RpcCommand::Finished. -/
inductive DoRetryAction where
  | sendRpc
  | finished (s : Status)
  deriving DecidableEq, Repr

/-- The overall-deadline check at the top of the run path of DoRetry: an OK
scheduled status becomes TimedOut when the deadline is initialized and comes
before now, with last_error appended to the message when non-OK; any other
status passes through. -/
def RpcRetrier.deadlineCheckedStatus (r : RpcRetrier) (rpcStr : String) (status : Status)
    (now : Nat) : Status :=
  if status.isOk then
    match r.deadline with
    | some d =>
        if d < now then
          let errStr :=
            rpcStr ++ " passed its deadline " ++ Nat.repr d ++
              " (now: " ++ Nat.repr now ++ ")"
          let errStr :=
            if !r.last_error.isOk then errStr ++ ": " ++ r.last_error.ToString
            else errStr
          (⟨.timedOut, errStr⟩ : Status)
        else status
    | none => status
  else status

/-- RpcRetrier::DoRetry, fired by the reactor with the scheduled status and the
current time now. The CAS kWaiting to kRunning wins on kWaiting; an observed
kScheduling busy-waits for the scheduling thread (divergence sequentially:
none); any other observed state takes the non-run path, which still clears
task_id and delivers Aborted. On the run path task_id is cleared, the deadline
check may turn an OK scheduled status into TimedOut, an OK status resets the
controller and sends, a ServiceUnavailable is wrapped as Aborted, and the
final CAS kRunning to kIdle succeeds in a sequential execution. -/
def RpcRetrier.DoRetry (r : RpcRetrier) (rpcStr : String) (status : Status) (now : Nat) :
    Option (RpcRetrier × DoRetryAction) :=
  match r.state with
  | .kScheduling => none
  | .kWaiting =>
      let r1 := { r with state := RpcRetrierState.kRunning, task_id := none }
      let newStatus := r1.deadlineCheckedStatus rpcStr status now
      if newStatus.isOk then
        some ({ r1 with state := RpcRetrierState.kIdle, controller := RpcController.Reset },
              .sendRpc)
      else
        let finalStatus :=
          if newStatus.IsServiceUnavailable then
            (⟨.aborted, "Aborted because of " ++ newStatus.ToString⟩ : Status)
          else newStatus
        some ({ r1 with state := RpcRetrierState.kIdle }, .finished finalStatus)
  | st =>
      some ({ r with task_id := none },
            .finished ⟨.aborted, rpcStr ++ " aborted: " ++ st.toStr⟩)

/-- The destructor check of RpcRetrier: LOG_IF(DFATAL, ...) fires when task_id
is not the invalid sentinel or the state is neither kFinished nor kIdle. -/
def RpcRetrier.destructorFatal (r : RpcRetrier) : Bool :=
  r.task_id ≠ none ||
    (r.state ≠ RpcRetrierState.kFinished && r.state ≠ RpcRetrierState.kIdle)

/-- The quiescence invariant on a retrier: whenever the state is kIdle or
kFinished, task_id is the invalid sentinel. -/
def RpcRetrier.taskIdInvariant (r : RpcRetrier) : Prop :=
  (r.state = RpcRetrierState.kIdle ∨ r.state = RpcRetrierState.kFinished) → r.task_id = none

instance (r : RpcRetrier) : Decidable r.taskIdInvariant := by
  unfold RpcRetrier.taskIdInvariant
  infer_instance

/-- An RpcCommand as the registry sees it: an identity and a deadline
(the value of call->deadline(), an absolute instant in milliseconds). -/
structure RpcCommand where
  id : Nat
  deadline : Nat
  deriving DecidableEq, Repr

/-- The Rpcs registry: the ordered list of registered calls (a slot of none is
an unfilled Prepare placeholder, i.e. a null RpcCommandPtr) and the shutdown
flag. A Handle is an index into calls; the InvalidHandle sentinel is none. -/
structure Rpcs where
  calls : List (Option RpcCommand)
  shutdownFlag : Bool
  deriving DecidableEq, Repr

/-- Result of Rpcs::Register: the post-state, the returned handle, and the
commands on which Abort was invoked, in order. -/
structure RegisterResult where
  rpcs : Rpcs
  handle : Option Nat
  aborted : List RpcCommand
  deriving DecidableEq, Repr

/-- Rpcs::Register: under the mutex, an already-shut-down registry aborts the
command and returns InvalidHandle; otherwise the command is appended and the
handle of the appended element is returned. -/
def Rpcs.Register (r : Rpcs) (call : RpcCommand) : RegisterResult :=
  if r.shutdownFlag then ⟨r, none, [call]⟩
  else ⟨⟨r.calls ++ [some call], r.shutdownFlag⟩, some r.calls.length, []⟩

/-- Rpcs::Prepare: under the mutex, a shut-down registry returns InvalidHandle;
otherwise an empty placeholder slot is appended and its handle returned. -/
def Rpcs.Prepare (r : Rpcs) : Rpcs × Option Nat :=
  if r.shutdownFlag then (r, none)
  else (⟨r.calls ++ [none], r.shutdownFlag⟩, some r.calls.length)

/-- Writing a command into a prepared slot (the callers do *handle = cmd). -/
def Rpcs.fillHandle (r : Rpcs) (i : Nat) (call : RpcCommand) : Rpcs :=
  ⟨r.calls.set i (some call), r.shutdownFlag⟩

/-- The abort loop of DoRequestAbortAll over the snapshot: CHECK(call) is
fatal on a null entry (none result); otherwise each command is aborted and
the deadline accumulator is raised to its deadline plus the extra delay. -/
def abortAllLoop (extraDelay : Nat) :
    List (Option RpcCommand) → Nat → List RpcCommand → Option (List RpcCommand × Nat)
  | [], acc, aborted => some (aborted.reverse, acc)
  | none :: _, _, _ => none
  | some c :: rest, acc, aborted =>
      abortAllLoop extraDelay rest (max acc (c.deadline + extraDelay)) (c :: aborted)

/-- Result of DoRequestAbortAll: the post-state, the aborted commands in
order, and the computed drain deadline. -/
structure AbortAllResult where
  rpcs : Rpcs
  aborted : List RpcCommand
  deadline : Nat
  deriving DecidableEq, Repr

/-- Rpcs::DoRequestAbortAll: when the registry is not yet shut down, set the
shutdown flag to the argument and snapshot the calls; the deadline starts at
now plus rpcs_shutdown_timeout_ms and is raised by each aborted call to its
deadline plus rpcs_shutdown_extra_delay_ms; a null snapshot entry trips
CHECK(call), modelled as none. -/
def Rpcs.DoRequestAbortAll (r : Rpcs) (shutdown : Bool) (now timeoutMs extraDelayMs : Nat) :
    Option AbortAllResult :=
  let snapshot := if r.shutdownFlag then [] else r.calls
  let r1 : Rpcs := if r.shutdownFlag then r else ⟨r.calls, shutdown⟩
  match abortAllLoop extraDelayMs snapshot (now + timeoutMs) [] with
  | none => none
  | some (cmds, deadline) => some ⟨r1, cmds, deadline⟩

/-- Rpcs::Shutdown: DoRequestAbortAll with kTrue, then wait on the condition
until calls is empty or the computed deadline elapses; callsAtWaitExit is the
contents of calls when the wait loop exits (concurrent unregisters may have
drained it). CHECK(calls_.empty()) afterwards is fatal (none) on a non-empty
residue; on success the computed deadline and aborted commands are reported. -/
def Rpcs.Shutdown (r : Rpcs) (now timeoutMs extraDelayMs : Nat)
    (callsAtWaitExit : List (Option RpcCommand)) : Option (Nat × List RpcCommand) :=
  match r.DoRequestAbortAll true now timeoutMs extraDelayMs with
  | none => none
  | some res => if callsAtWaitExit.isEmpty then some (res.deadline, res.aborted) else none

/-! Helper lemmas about the fields untouched by the last_error update. -/

@[simp]
theorem updateLastError_state (r : RpcRetrier) (w : Status) :
    (r.updateLastError w).state = r.state := by
  unfold RpcRetrier.updateLastError
  split <;> rfl

@[simp]
theorem updateLastError_attempt_num (r : RpcRetrier) (w : Status) :
    (r.updateLastError w).attempt_num = r.attempt_num := by
  unfold RpcRetrier.updateLastError
  split <;> rfl

@[simp]
theorem updateLastError_task_id (r : RpcRetrier) (w : Status) :
    (r.updateLastError w).task_id = r.task_id := by
  unfold RpcRetrier.updateLastError
  split <;> rfl

@[simp]
theorem updateLastError_deadline (r : RpcRetrier) (w : Status) :
    (r.updateLastError w).deadline = r.deadline := by
  unfold RpcRetrier.updateLastError
  split <;> rfl

@[simp]
theorem updateLastError_controller (r : RpcRetrier) (w : Status) :
    (r.updateLastError w).controller = r.controller := by
  unfold RpcRetrier.updateLastError
  split <;> rfl

/-- C2: for every invocation of DelayedRetry with attempt counter n, the
computed delay in milliseconds equals (1 shifted by min (MinExp + n) MaxExp)
plus j for the exponential strategy and n plus j for the linear strategy,
where j is the jitter drawn uniformly from [0, 4]; MinExp defaults to 7 and
MaxExp to 16; the attempt counter is incremented before the schedule call, so
the next attempt observes n + 1; and whenever the schedule call is made it is
handed exactly the computed delay. -/
theorem c2_delayed_retry_backoff (r : RpcRetrier) (rpcStr : String) (whyStatus : Status)
    (strategy : BackoffStrategy) (minExp maxExp jitter : Nat)
    (schedule : Nat → Option Nat) (res : DelayedRetryResult)
    (hj : jitter ≤ 4)
    (hres : r.DelayedRetry rpcStr whyStatus strategy minExp maxExp jitter schedule = some res) :
    res.num_ms =
      (match strategy with
        | .kExponential => 2 ^ min (minExp + r.attempt_num) maxExp
        | .kLinear => r.attempt_num) + jitter
    ∧ res.retrier.attempt_num = r.attempt_num + 1
    ∧ (res.scheduledDelay = none ∨ res.scheduledDelay = some res.num_ms)
    ∧ FLAGS_min_backoff_ms_exponent = 7 ∧ FLAGS_max_backoff_ms_exponent = 16 := by
  unfold RpcRetrier.DelayedRetry at hres
  cases hst : r.state <;>
    simp only [updateLastError_state, updateLastError_attempt_num, hst] at hres
  case kIdle =>
    cases hs : schedule (backoffDelayMs strategy minExp maxExp r.attempt_num jitter) <;>
      simp only [hs] at hres <;>
      cases hres <;>
      simp [backoffDelayMs, FLAGS_min_backoff_ms_exponent, FLAGS_max_backoff_ms_exponent] <;>
      cases strategy <;> rfl
  case kScheduling => cases hres
  case kWaiting =>
    cases hres
    simp [backoffDelayMs, FLAGS_min_backoff_ms_exponent, FLAGS_max_backoff_ms_exponent]
    cases strategy <;> rfl
  case kRunning => cases hres
  case kFinished =>
    cases hres
    simp [backoffDelayMs, FLAGS_min_backoff_ms_exponent, FLAGS_max_backoff_ms_exponent]
    cases strategy <;> rfl

/-- Witness for c2_delayed_retry_backoff at a concrete retrier in kIdle with
attempt counter 1, jitter 3, exponential strategy and default exponents:
the delay is 2 to the 8 plus 3 and the next attempt observes counter 2. -/
theorem c2_delayed_retry_backoff_witness :
    (3 : Nat) ≤ 4 ∧ (259 : Nat) = 2 ^ min (7 + 1) 16 + 3 ∧ (2 : Nat) = 1 + 1 := by
  have h := c2_delayed_retry_backoff ⟨1, Status.OK, .kIdle, none, none, ⟨Status.OK, none⟩⟩
    "rpc" Status.OK .kExponential 7 16 3 (fun _ => some 11)
    ⟨⟨2, Status.OK, .kWaiting, some 11, none, ⟨Status.OK, none⟩⟩, Status.OK, 259, some 259⟩
    (by decide) rfl
  exact ⟨by decide, h.1, h.2.1⟩

/-- C5: for every invocation of DelayedRetry with a non-OK why_status,
last_error is overwritten with why_status exactly when the prior last_error is
OK or a TimedOut status; an OK why_status, or a prior error that is neither OK
nor a timeout, leaves last_error unchanged. -/
theorem c5_last_error_policy (r : RpcRetrier) (rpcStr : String) (whyStatus : Status)
    (strategy : BackoffStrategy) (minExp maxExp jitter : Nat)
    (schedule : Nat → Option Nat) (res : DelayedRetryResult)
    (hres : r.DelayedRetry rpcStr whyStatus strategy minExp maxExp jitter schedule = some res) :
    (whyStatus.isOk = false ∧ (r.last_error.isOk = true ∨ r.last_error.IsTimedOut = true) →
        res.retrier.last_error = whyStatus)
    ∧ (whyStatus.isOk = true → res.retrier.last_error = r.last_error)
    ∧ (r.last_error.isOk = false ∧ r.last_error.IsTimedOut = false →
        res.retrier.last_error = r.last_error) := by
  have hle : res.retrier.last_error = (r.updateLastError whyStatus).last_error := by
    unfold RpcRetrier.DelayedRetry at hres
    cases hst : r.state <;>
      simp only [updateLastError_state, hst] at hres
    case kIdle =>
      cases hs : schedule (backoffDelayMs strategy minExp maxExp
          (r.updateLastError whyStatus).attempt_num jitter) <;>
        simp only [hs] at hres <;> cases hres <;> rfl
    case kScheduling => cases hres
    case kWaiting => cases hres; rfl
    case kRunning => cases hres
    case kFinished => cases hres; rfl
  rw [hle]
  unfold RpcRetrier.updateLastError
  refine ⟨fun hc => ?_, fun hc => ?_, fun hc => ?_⟩
  · rw [if_pos]
    rw [hc.1]
    rcases hc.2 with h | h <;> simp [h]
  · rw [if_neg]
    simp [hc]
  · rw [if_neg]
    simp [hc.1, hc.2]

/-- Witness for c5_last_error_policy: a remote error supersedes a prior
TimedOut last_error at a concrete retrier. -/
theorem c5_last_error_policy_witness :
    (Status.mk .remoteError "e" : Status) = ⟨.remoteError, "e"⟩ := by
  have h := (c5_last_error_policy ⟨0, ⟨.timedOut, "t"⟩, .kIdle, none, none, ⟨Status.OK, none⟩⟩
    "rpc" ⟨.remoteError, "e"⟩ .kLinear 7 16 0 (fun _ => some 1)
    ⟨⟨1, ⟨.remoteError, "e"⟩, .kWaiting, some 1, none, ⟨Status.OK, none⟩⟩,
      Status.OK, 0, some 0⟩ rfl).1 (by decide)
  exact h

/-- C3: for every invocation of DoRetry with an OK scheduled status, a retrier
in kWaiting, and an initialized overall deadline strictly before the current
time, the retrier synthesizes a TimedOut status with message
rpc passed its deadline D (now: T), appending a colon and last_error exactly
when last_error is non-OK, and delivers it through the command Finished
action instead of sending another attempt. -/
theorem c3_do_retry_deadline (r : RpcRetrier) (rpcStr : String) (now d : Nat)
    (hstate : r.state = RpcRetrierState.kWaiting)
    (hdl : r.deadline = some d) (hlt : d < now) :
    r.DoRetry rpcStr Status.OK now =
      some ({ r with state := RpcRetrierState.kIdle, task_id := none },
        DoRetryAction.finished
          ⟨.timedOut,
            if r.last_error.isOk then
              rpcStr ++ " passed its deadline " ++ Nat.repr d ++ " (now: " ++ Nat.repr now ++ ")"
            else
              rpcStr ++ " passed its deadline " ++ Nat.repr d ++ " (now: " ++ Nat.repr now ++ ")"
                ++ ": " ++ r.last_error.ToString⟩) := by
  unfold RpcRetrier.DoRetry
  rw [hstate]
  by_cases hok : r.last_error.kind = StatusKind.ok <;>
    simp [hdl, hlt, Status.isOk, Status.OK, Status.IsServiceUnavailable,
      RpcRetrier.deadlineCheckedStatus, hok]

/-- Witness for c3_do_retry_deadline: a retrier in kWaiting with deadline 100,
a non-OK last_error, and the clock at 200. -/
theorem c3_do_retry_deadline_witness :
    RpcRetrier.DoRetry
        ⟨1, ⟨.remoteError, "boom"⟩, .kWaiting, some 3, some 100, ⟨Status.OK, none⟩⟩
        "rpc" Status.OK 200 =
      some (⟨1, ⟨.remoteError, "boom"⟩, .kIdle, none, some 100, ⟨Status.OK, none⟩⟩,
        DoRetryAction.finished
          ⟨.timedOut, "rpc passed its deadline 100 (now: 200): Remote error: boom"⟩) := by
  have h := c3_do_retry_deadline
    ⟨1, ⟨.remoteError, "boom"⟩, .kWaiting, some 3, some 100, ⟨Status.OK, none⟩⟩
    "rpc" 200 100 rfl rfl (by decide)
  exact h

/-- C6: when the messenger refuses to schedule the delayed task (returns the
invalid task id sentinel), DelayedRetry moves the retrier from kScheduling to
kFinished, leaves task_id at the invalid sentinel, and returns an Aborted
status; and no DoRetry on the resulting retrier can ever take the run path
(there is no outstanding task, and the kFinished state stays kFinished with
the command told Aborted if the callback were ever invoked). -/
theorem c6_schedule_refused (r : RpcRetrier) (rpcStr : String) (whyStatus : Status)
    (strategy : BackoffStrategy) (minExp maxExp jitter : Nat)
    (schedule : Nat → Option Nat) (res : DelayedRetryResult)
    (hstate : r.state = RpcRetrierState.kIdle)
    (hrefuse : ∀ delay, schedule delay = none)
    (hres : r.DelayedRetry rpcStr whyStatus strategy minExp maxExp jitter schedule = some res) :
    res.status = ⟨.aborted, "Failed to schedule: " ++ rpcStr⟩
    ∧ res.retrier.state = RpcRetrierState.kFinished
    ∧ res.retrier.task_id = none
    ∧ (∀ status now out, res.retrier.DoRetry rpcStr status now = some out →
        out.2 ≠ DoRetryAction.sendRpc ∧ out.1.state = RpcRetrierState.kFinished) := by
  unfold RpcRetrier.DelayedRetry at hres
  simp only [updateLastError_state, updateLastError_attempt_num, hstate,
    hrefuse] at hres
  cases hres
  refine ⟨rfl, rfl, rfl, ?_⟩
  intro status now out hout
  unfold RpcRetrier.DoRetry at hout
  simp only [] at hout
  cases hout
  exact ⟨by simp, rfl⟩

/-- Witness for c6_schedule_refused at a concrete idle retrier and a messenger
that refuses every request. -/
theorem c6_schedule_refused_witness :
    (Status.mk .aborted ("Failed to schedule: " ++ "rpc") : Status) =
      ⟨.aborted, "Failed to schedule: rpc"⟩ := by
  have h := c6_schedule_refused ⟨0, Status.OK, .kIdle, none, none, ⟨Status.OK, none⟩⟩
    "rpc" Status.OK .kExponential 7 16 0 (fun _ => none)
    ⟨⟨1, Status.OK, .kFinished, none, none, ⟨Status.OK, none⟩⟩,
      ⟨.aborted, "Failed to schedule: rpc"⟩, 128, some 128⟩
    rfl (fun _ => rfl) rfl
  exact h.1

/-- A retrier already in the terminal state, used to exercise the DelayedRetry
failure paths on concrete inputs. -/
def finishedRetrier : RpcRetrier :=
  ⟨0, Status.OK, .kFinished, none, none, ⟨Status.OK, none⟩⟩

/-- C4 counterexample: invoking DelayedRetry on a finished retrier does fail,
but the failure message is Retry of finished command: rpc (not the claimed
lowercase text without the command), and the retrier is changed: its attempt
counter goes from 0 to 1, so there is a state change to the Retrier. -/
theorem c4_counterexample :
    (finishedRetrier.DelayedRetry "rpc" ⟨.remoteError, "busy"⟩ .kExponential 7 16 0
        (fun _ => some 1)).map
        (fun res => (res.status.kind, res.status.msg, res.retrier.attempt_num)) =
      some (.illegalState, "Retry of finished command: rpc", 1)
    ∧ finishedRetrier.attempt_num = 0
    ∧ "Retry of finished command: rpc" ≠ "retry of finished command"
    ∧ (finishedRetrier.DelayedRetry "rpc" ⟨.remoteError, "busy"⟩ .kExponential 7 16 0
        (fun _ => some 1)).map DelayedRetryResult.retrier ≠ some finishedRetrier := by
  refine ⟨rfl, rfl, by decide, by decide⟩

/-- C4 amended: DelayedRetry on a kFinished retrier fails with
IllegalState(Retry of finished command: cmd) and on a kWaiting retrier with
IllegalState(Retry of already waiting command: cmd); in both failure cases the
error is surfaced to the caller, nothing is scheduled, and the state-machine
state, task_id, deadline and controller are unchanged, but the attempt counter
is still incremented and last_error may still be overwritten, because those
updates precede the state check. -/
theorem c4_amended (r : RpcRetrier) (rpcStr : String) (whyStatus : Status)
    (strategy : BackoffStrategy) (minExp maxExp jitter : Nat)
    (schedule : Nat → Option Nat) (res : DelayedRetryResult)
    (hres : r.DelayedRetry rpcStr whyStatus strategy minExp maxExp jitter schedule = some res) :
    (r.state = RpcRetrierState.kFinished →
      res.status = ⟨.illegalState, "Retry of finished command: " ++ rpcStr⟩)
    ∧ (r.state = RpcRetrierState.kWaiting →
      res.status = ⟨.illegalState, "Retry of already waiting command: " ++ rpcStr⟩)
    ∧ (r.state = RpcRetrierState.kFinished ∨ r.state = RpcRetrierState.kWaiting →
      res.scheduledDelay = none
      ∧ res.retrier.state = r.state
      ∧ res.retrier.task_id = r.task_id
      ∧ res.retrier.deadline = r.deadline
      ∧ res.retrier.controller = r.controller
      ∧ res.retrier.attempt_num = r.attempt_num + 1
      ∧ res.retrier.last_error = (r.updateLastError whyStatus).last_error) := by
  unfold RpcRetrier.DelayedRetry at hres
  cases hst : r.state <;>
    simp only [updateLastError_state, updateLastError_attempt_num, updateLastError_task_id,
      updateLastError_deadline, updateLastError_controller, hst] at hres
  case kIdle =>
    refine ⟨fun h => by simp [hst] at h, fun h => by simp [hst] at h, fun h => ?_⟩
    rcases h with h | h <;> simp [hst] at h
  case kScheduling => cases hres
  case kWaiting =>
    cases hres
    refine ⟨fun h => by simp [hst] at h, fun _ => rfl, fun _ => ?_⟩
    simp [hst]
  case kRunning => cases hres
  case kFinished =>
    cases hres
    refine ⟨fun _ => rfl, fun h => by simp [hst] at h, fun _ => ?_⟩
    simp [hst]

/-- Witness for c4_amended: the concrete finished retrier with a busy error. -/
theorem c4_amended_witness :
    (Status.mk .illegalState ("Retry of finished command: " ++ "rpc") : Status) =
      ⟨.illegalState, "Retry of finished command: rpc"⟩ := by
  have h := c4_amended finishedRetrier "rpc" ⟨.remoteError, "busy"⟩ .kExponential 7 16 0
    (fun _ => some 1)
    ⟨⟨1, ⟨.remoteError, "busy"⟩, .kFinished, none, none, ⟨Status.OK, none⟩⟩,
      ⟨.illegalState, "Retry of finished command: rpc"⟩, 128, none⟩
    rfl
  exact h.1 rfl

/-- A retrier whose controller reports a remote error carrying the
ERROR_SERVER_TOO_BUSY code, already in the terminal state, so that the busy
retry is attempted and the scheduling fails. -/
def c1BusyFinishedRetrier : RpcRetrier :=
  ⟨0, Status.OK, .kFinished, none, none,
    ⟨⟨.remoteError, "busy"⟩, some ⟨true, .ERROR_SERVER_TOO_BUSY⟩⟩⟩

/-- C1 counterexample: with a SERVER_TOO_BUSY remote error, retry_when_busy
set, and a retrier on which scheduling fails (terminal state), HandleResponse
returns false but writes the DelayedRetry error to out_status, not the
controller status verbatim as the claim requires for every non-retried case. -/
theorem c1_counterexample :
    (c1BusyFinishedRetrier.HandleResponse "rpc" true 7 16 0 (fun _ => some 1)).map
        (fun res => (res.retval, res.out_status)) =
      some (false, some ⟨.illegalState, "Retry of finished command: rpc"⟩)
    ∧ c1BusyFinishedRetrier.controller.status = ⟨.remoteError, "busy"⟩
    ∧ (Status.mk .illegalState "Retry of finished command: rpc" : Status) ≠
        ⟨.remoteError, "busy"⟩ := by
  refine ⟨rfl, rfl, by decide⟩

/-- C1 amended: a retry is scheduled (HandleResponse returns true, having
invoked DelayedRetry with exponential backoff) exactly when the controller
status is a remote error whose structured error response carries code
ERROR_SERVER_TOO_BUSY, the caller passed retry_when_busy, and the scheduling
succeeds; when that busy condition fails, HandleResponse returns false with
out_status set to the controller status verbatim (in particular SERVER_TOO_BUSY
with retry_when_busy unset is not retried); and when the busy condition holds
but DelayedRetry fails, HandleResponse returns false with out_status set to the
DelayedRetry error rather than the controller status. -/
theorem c1_amended (r : RpcRetrier) (rpcStr : String) (retryWhenBusy : Bool)
    (minExp maxExp jitter : Nat) (schedule : Nat → Option Nat)
    (res : HandleResponseResult)
    (hres : r.HandleResponse rpcStr retryWhenBusy minExp maxExp jitter schedule = some res) :
    (res.retval = true →
      r.controller.status.IsRemoteError = true ∧ retryWhenBusy = true
      ∧ (∃ err, r.controller.errorResponse = some err ∧ err.hasCode = true
          ∧ err.code = ErrorCodePB.ERROR_SERVER_TOO_BUSY)
      ∧ res.out_status = none)
    ∧ (¬ (r.controller.status.IsRemoteError = true ∧ retryWhenBusy = true
          ∧ ∃ err, r.controller.errorResponse = some err ∧ err.hasCode = true
            ∧ err.code = ErrorCodePB.ERROR_SERVER_TOO_BUSY) →
      res.retval = false ∧ res.out_status = some r.controller.status ∧ res.retrier = r)
    ∧ (r.controller.status.IsRemoteError = true → retryWhenBusy = true →
      ∀ err, r.controller.errorResponse = some err → err.hasCode = true →
        err.code = ErrorCodePB.ERROR_SERVER_TOO_BUSY →
      ∀ dres, r.DelayedRetry rpcStr r.controller.status .kExponential minExp maxExp jitter
          schedule = some dres →
        res.retrier = dres.retrier
        ∧ (dres.status.isOk = true → res.retval = true ∧ res.out_status = none)
        ∧ (dres.status.isOk = false →
            res.retval = false ∧ res.out_status = some dres.status)) := by
  unfold RpcRetrier.HandleResponse at hres
  by_cases hcond : (r.controller.status.IsRemoteError && retryWhenBusy) = true
  case pos =>
    rw [if_pos hcond] at hres
    have hre : r.controller.status.IsRemoteError = true ∧ retryWhenBusy = true := by
      simpa using hcond
    cases herr : r.controller.errorResponse with
    | none =>
        simp only [herr] at hres
        cases hres
        refine ⟨?_, ?_, ?_⟩
        · intro h
          simp at h
        · intro _
          exact ⟨rfl, rfl, rfl⟩
        · intro _ _ err2 herr2 _ _ _ _
          exact Option.noConfusion herr2
    | some err =>
        simp only [herr] at hres
        by_cases hcode :
            (err.hasCode && decide (err.code = ErrorCodePB.ERROR_SERVER_TOO_BUSY)) = true
        · rw [if_pos hcode] at hres
          have hcd : err.hasCode = true ∧ err.code = ErrorCodePB.ERROR_SERVER_TOO_BUSY := by
            simpa using hcode
          cases hdr : r.DelayedRetry rpcStr r.controller.status BackoffStrategy.kExponential
              minExp maxExp jitter schedule with
          | none =>
              simp only [hdr] at hres
              exact Option.noConfusion hres
          | some dres =>
              simp only [hdr] at hres
              by_cases hok : dres.status.isOk = true
              · rw [if_pos hok] at hres
                cases hres
                refine ⟨fun _ => ⟨hre.1, hre.2, ⟨err, rfl, hcd.1, hcd.2⟩, rfl⟩,
                  fun hn => absurd ⟨hre.1, hre.2, err, rfl, hcd.1, hcd.2⟩ hn, ?_⟩
                intro _ _ err2 herr2 _ _ dres2 hdr2
                cases herr2
                cases hdr2
                exact ⟨rfl, fun _ => ⟨rfl, rfl⟩, fun hne => by rw [hok] at hne; cases hne⟩
              · rw [if_neg hok] at hres
                cases hres
                refine ⟨?_, fun hn => absurd ⟨hre.1, hre.2, err, rfl, hcd.1, hcd.2⟩ hn, ?_⟩
                · intro h
                  simp at h
                · intro _ _ err2 herr2 _ _ dres2 hdr2
                  cases herr2
                  cases hdr2
                  refine ⟨rfl, fun hok2 => absurd hok2 hok, fun _ => ⟨rfl, rfl⟩⟩
        · rw [if_neg hcode] at hres
          cases hres
          refine ⟨?_, ?_, ?_⟩
          · intro h
            simp at h
          · intro _
            exact ⟨rfl, rfl, rfl⟩
          · intro _ _ err2 herr2 hhc2 hcd2 _ _
            cases herr2
            exact absurd (by rw [hhc2, hcd2]; rfl) hcode
  case neg =>
    rw [if_neg hcond] at hres
    cases hres
    refine ⟨?_, ?_, ?_⟩
    · intro h
      simp at h
    · intro _
      exact ⟨rfl, rfl, rfl⟩
    · intro hre2 hwb2 _ _ _ _ _ _
      exact absurd (by rw [hre2, hwb2]; rfl) hcond

/-- Witness for c1_amended: a busy remote error on an idle retrier with an
accepting messenger is retried; HandleResponse reports true. -/
theorem c1_amended_witness :
    (RpcRetrier.HandleResponse
        ⟨0, Status.OK, .kIdle, none, none,
          ⟨⟨.remoteError, "busy"⟩, some ⟨true, .ERROR_SERVER_TOO_BUSY⟩⟩⟩
        "rpc" true 7 16 0 (fun _ => some 9)).map HandleResponseResult.retval = some true := by
  have h := c1_amended
    ⟨0, Status.OK, .kIdle, none, none,
      ⟨⟨.remoteError, "busy"⟩, some ⟨true, .ERROR_SERVER_TOO_BUSY⟩⟩⟩
    "rpc" true 7 16 0 (fun _ => some 9)
    ⟨⟨1, ⟨.remoteError, "busy"⟩, .kWaiting, some 9, none,
      ⟨⟨.remoteError, "busy"⟩, some ⟨true, .ERROR_SERVER_TOO_BUSY⟩⟩⟩, true, none⟩
    rfl
  have h2 := (h.2.2 rfl rfl ⟨true, .ERROR_SERVER_TOO_BUSY⟩ rfl rfl rfl
    ⟨⟨1, ⟨.remoteError, "busy"⟩, .kWaiting, some 9, none,
      ⟨⟨.remoteError, "busy"⟩, some ⟨true, .ERROR_SERVER_TOO_BUSY⟩⟩⟩,
      Status.OK, 128, some 128⟩ rfl).2.1 rfl
  exact h2.1 ▸ rfl

/-- C8: registering a command after shutdown aborts it exactly once and
returns InvalidHandle without appending; before shutdown it appends the
command and returns a handle referring to the appended element. -/
theorem c8_register (r : Rpcs) (c : RpcCommand) :
    (r.shutdownFlag = true → r.Register c = ⟨r, none, [c]⟩)
    ∧ (r.shutdownFlag = false →
        (r.Register c).rpcs = ⟨r.calls ++ [some c], false⟩
        ∧ (r.Register c).handle = some r.calls.length
        ∧ (r.Register c).aborted = []
        ∧ (r.Register c).rpcs.calls.get? r.calls.length = some (some c)) := by
  constructor
  · intro h
    unfold Rpcs.Register
    rw [if_pos h]
  · intro h
    unfold Rpcs.Register
    rw [if_neg (by rw [h]; exact Bool.false_ne_true)]
    refine ⟨by rw [h], rfl, rfl, ?_⟩
    exact List.get?_concat_length r.calls (some c)

/-- Witness for c8_register: both the shut-down and the live registry at
concrete inputs. -/
theorem c8_register_witness :
    Rpcs.Register ⟨[], true⟩ ⟨5, 9⟩ = ⟨⟨[], true⟩, none, [⟨5, 9⟩]⟩
    ∧ (Rpcs.Register ⟨[some ⟨1, 2⟩], false⟩ ⟨5, 9⟩).handle = some 1 := by
  exact ⟨(c8_register ⟨[], true⟩ ⟨5, 9⟩).1 rfl,
    ((c8_register ⟨[some ⟨1, 2⟩], false⟩ ⟨5, 9⟩).2 rfl).2.1⟩

/-- The abort loop of DoRequestAbortAll trips CHECK(call) exactly when the
snapshot holds a null entry. -/
theorem abortAllLoop_eq_none_iff (e : Nat) :
    ∀ (l : List (Option RpcCommand)) (acc : Nat) (pre : List RpcCommand),
      abortAllLoop e l acc pre = none ↔ none ∈ l := by
  intro l
  induction l with
  | nil =>
      intro acc pre
      simp [abortAllLoop]
  | cons hd tl ih =>
      intro acc pre
      cases hd with
      | none => simp [abortAllLoop]
      | some c => simp [abortAllLoop, ih]

/-- Reduction of DoRequestAbortAll on a registry that is not yet shut down:
the snapshot is the whole calls list and the flag becomes the argument. -/
theorem doRequestAbortAll_eq (r : Rpcs) (s : Bool) (now t e : Nat)
    (hsd : r.shutdownFlag = false) :
    r.DoRequestAbortAll s now t e =
      match abortAllLoop e r.calls (now + t) [] with
      | none => none
      | some (cmds, dl) => some ⟨⟨r.calls, s⟩, cmds, dl⟩ := by
  unfold Rpcs.DoRequestAbortAll
  rw [hsd]
  simp only [if_neg Bool.false_ne_true]

/-- C10: every placeholder slot appended by Prepare is null until overwritten;
DoRequestAbortAll asserts every snapshotted entry non-null, so an unfilled
placeholder present when abort-all or shutdown runs is a fatal CHECK failure,
and the fatality happens exactly when a null entry is in the snapshot. -/
theorem c10_prepare_placeholder (r : Rpcs) (s : Bool) (now t e : Nat)
    (hsd : r.shutdownFlag = false) :
    (r.Prepare).2 = some r.calls.length
    ∧ (r.Prepare).1.calls.get? r.calls.length = some none
    ∧ (r.Prepare).1.DoRequestAbortAll s now t e = none
    ∧ (r.DoRequestAbortAll s now t e = none ↔ none ∈ r.calls) := by
  have hp : r.Prepare = (⟨r.calls ++ [none], r.shutdownFlag⟩, some r.calls.length) := by
    unfold Rpcs.Prepare
    rw [if_neg (by rw [hsd]; exact Bool.false_ne_true)]
  refine ⟨by rw [hp], by rw [hp]; exact List.get?_concat_length r.calls none, ?_, ?_⟩
  · rw [hp]
    rw [doRequestAbortAll_eq ⟨r.calls ++ [none], r.shutdownFlag⟩ s now t e hsd]
    have hnone : abortAllLoop e (r.calls ++ [none]) (now + t) [] = none :=
      (abortAllLoop_eq_none_iff e (r.calls ++ [none]) (now + t) []).mpr (by simp)
    rw [hnone]
  · rw [doRequestAbortAll_eq r s now t e hsd]
    cases habort : abortAllLoop e r.calls (now + t) [] with
    | none =>
        exact ⟨fun _ => (abortAllLoop_eq_none_iff e r.calls (now + t) []).mp habort,
          fun _ => rfl⟩
    | some p =>
        obtain ⟨cmds2, dl2⟩ := p
        constructor
        · intro hcontra
          exact Option.noConfusion hcontra
        · intro hmem
          rw [(abortAllLoop_eq_none_iff e r.calls (now + t) []).mpr hmem] at habort
          exact Option.noConfusion habort

/-- Witness for c10_prepare_placeholder: preparing a slot on a live registry
with one filled call and immediately running abort-all is fatal. -/
theorem c10_prepare_placeholder_witness :
    Rpcs.DoRequestAbortAll ⟨[some ⟨1, 2⟩, none], false⟩ true 0 50 10 = none := by
  exact (c10_prepare_placeholder ⟨[some ⟨1, 2⟩], false⟩ true 0 50 10 rfl).2.2.1

/-- A registry holding one live call with deadline 300, used for the drain
deadline computation of shutdown. -/
def c7Registry : Rpcs := ⟨[some ⟨1, 300⟩], false⟩

/-- C7 counterexample: with now 0, a shutdown timeout of 50 ms, an extra delay
of 10 ms and one call with deadline 300, the computed drain deadline is 310
(the maximum of now plus timeout and the per-call deadline plus extra), not
the claimed sum now + timeout + max(per-call deadline + extra) = 360. -/
theorem c7_counterexample :
    (c7Registry.DoRequestAbortAll true 0 50 10).map AbortAllResult.deadline = some 310
    ∧ (310 : Nat) ≠ 0 + 50 + (300 + 10) := ⟨rfl, by decide⟩

theorem foldl_max_shift : ∀ (l : List Nat) (a : Nat), l.foldl max a = max a (l.foldl max 0) := by
  intro l
  induction l with
  | nil =>
      intro a
      simp
  | cons x tl ih =>
      intro a
      simp only [List.foldl]
      rw [ih (max a x), ih (max 0 x)]
      omega

/-- The abort loop of DoRequestAbortAll on an all-filled snapshot aborts every
command in order and computes the running maximum of deadline plus extra. -/
theorem abortAllLoop_map_some (e : Nat) :
    ∀ (cmds : List RpcCommand) (acc : Nat) (pre : List RpcCommand),
      abortAllLoop e (cmds.map some) acc pre =
        some (pre.reverse ++ cmds,
          max acc ((cmds.map fun c => c.deadline + e).foldl max 0)) := by
  intro cmds
  induction cmds with
  | nil =>
      intro acc pre
      simp [abortAllLoop]
  | cons c tl ih =>
      intro acc pre
      simp only [List.map, abortAllLoop, ih]
      refine congrArg some (Prod.ext ?_ ?_)
      · simp
      · simp only [List.foldl]
        rw [foldl_max_shift ((tl.map fun c => c.deadline + e)) (max 0 (c.deadline + e))]
        omega

/-- C7 amended: shutdown (through DoRequestAbortAll with the shutdown request)
sets the shutdown flag, aborts every registered command, computes the drain
deadline as the maximum of now + rpcs_shutdown_timeout_ms and the per-call
maximum of (deadline + rpcs_shutdown_extra_delay_ms), then waits on the
condition variable until calls is empty or that deadline elapses, and the
CHECK of calls.empty() afterwards is fatal exactly when the registry did not
drain. -/
theorem c7_amended (r : Rpcs) (now t e : Nat) (cmds : List RpcCommand)
    (callsAtWaitExit : List (Option RpcCommand))
    (hsd : r.shutdownFlag = false) (hcalls : r.calls = cmds.map some) :
    r.DoRequestAbortAll true now t e =
      some ⟨⟨r.calls, true⟩, cmds,
        max (now + t) ((cmds.map fun c => c.deadline + e).foldl max 0)⟩
    ∧ (callsAtWaitExit = [] →
        r.Shutdown now t e callsAtWaitExit =
          some (max (now + t) ((cmds.map fun c => c.deadline + e).foldl max 0), cmds))
    ∧ (callsAtWaitExit ≠ [] → r.Shutdown now t e callsAtWaitExit = none) := by
  have h1 : r.DoRequestAbortAll true now t e =
      some ⟨⟨r.calls, true⟩, cmds,
        max (now + t) ((cmds.map fun c => c.deadline + e).foldl max 0)⟩ := by
    rw [doRequestAbortAll_eq r true now t e hsd]
    rw [hcalls, abortAllLoop_map_some]
    simp
  refine ⟨h1, ?_, ?_⟩
  · intro hw
    unfold Rpcs.Shutdown
    rw [h1, hw]
    rfl
  · intro hw
    unfold Rpcs.Shutdown
    rw [h1]
    have : callsAtWaitExit.isEmpty = false := by
      cases callsAtWaitExit with
      | nil => exact absurd rfl hw
      | cons hd tl => rfl
    rw [this]
    rfl

/-- Witness for c7_amended: the registry with one call of deadline 300, a
timeout of 50 and extra delay of 10 drains to deadline 310 when the wait loop
exits empty, and trips the CHECK otherwise. -/
theorem c7_amended_witness :
    Rpcs.Shutdown c7Registry 0 50 10 [] = some (310, [⟨1, 300⟩])
    ∧ Rpcs.Shutdown c7Registry 0 50 10 [some ⟨1, 300⟩] = none := by
  have h := c7_amended c7Registry 0 50 10 [⟨1, 300⟩] [] rfl rfl
  have h2 := c7_amended c7Registry 0 50 10 [⟨1, 300⟩] [some ⟨1, 300⟩] rfl rfl
  exact ⟨h.2.1 rfl, h2.2.2 (by simp)⟩

/-- C9: the quiescence invariant that task_id is the invalid sentinel whenever
the state is kIdle or kFinished is preserved by DelayedRetry; every completed
DoRetry leaves task_id at the invalid sentinel (and preserves the invariant);
and the destructor check is non-fatal exactly when task_id is the invalid
sentinel and the state is kIdle or kFinished. -/
theorem c9_quiescent_task_id (r : RpcRetrier) (rpcStr : String) (whyStatus status : Status)
    (strategy : BackoffStrategy) (minExp maxExp jitter : Nat)
    (schedule : Nat → Option Nat) (now : Nat)
    (hInv : r.taskIdInvariant) :
    (∀ res, r.DelayedRetry rpcStr whyStatus strategy minExp maxExp jitter schedule = some res →
      res.retrier.taskIdInvariant)
    ∧ (∀ out, r.DoRetry rpcStr status now = some out →
        out.1.task_id = none ∧ out.1.taskIdInvariant)
    ∧ (r.destructorFatal = false ↔
        r.task_id = none
          ∧ (r.state = RpcRetrierState.kIdle ∨ r.state = RpcRetrierState.kFinished)) := by
  refine ⟨?_, ?_, ?_⟩
  · intro res hres
    unfold RpcRetrier.DelayedRetry at hres
    cases hst : r.state <;>
      simp only [updateLastError_state, updateLastError_task_id, hst] at hres
    case kIdle =>
      cases hs : schedule (backoffDelayMs strategy minExp maxExp
          (r.updateLastError whyStatus).attempt_num jitter) <;>
        simp only [hs] at hres <;> cases hres
      · intro _
        rfl
      · intro h
        rcases h with h | h <;> simp at h
    case kScheduling => cases hres
    case kWaiting =>
      cases hres
      intro h
      rcases h with h | h <;> simp at h
    case kRunning => cases hres
    case kFinished =>
      cases hres
      intro _
      exact hInv (Or.inr hst)
  · intro out hout
    unfold RpcRetrier.DoRetry at hout
    cases hst : r.state <;> simp only [hst] at hout
    case kScheduling => exact Option.noConfusion hout
    case kWaiting =>
      split at hout <;> cases hout
      · exact ⟨rfl, fun _ => rfl⟩
      · exact ⟨rfl, fun _ => rfl⟩
    all_goals
      cases hout
      exact ⟨rfl, fun _ => rfl⟩
  · unfold RpcRetrier.destructorFatal
    constructor
    · intro h
      simp only [Bool.or_eq_false_iff, Bool.and_eq_false_iff] at h
      refine ⟨by simpa using h.1, ?_⟩
      rcases h.2 with h2 | h2
      · exact Or.inr (by simpa using h2)
      · exact Or.inl (by simpa using h2)
    · intro h
      rcases h.2 with h2 | h2 <;> simp [h.1, h2]

/-- Witness for c9_quiescent_task_id: the freshly constructed retrier (kIdle,
invalid task id) satisfies the invariant and its destructor check passes. -/
theorem c9_quiescent_task_id_witness :
    RpcRetrier.destructorFatal ⟨0, Status.OK, .kIdle, none, none, ⟨Status.OK, none⟩⟩ = false := by
  exact (c9_quiescent_task_id ⟨0, Status.OK, .kIdle, none, none, ⟨Status.OK, none⟩⟩
    "rpc" Status.OK Status.OK .kExponential 7 16 0 (fun _ => some 1) 0
    (fun _ => rfl)).2.2.mpr ⟨rfl, Or.inl rfl⟩

end YbRpc
